import Mathlib

/-!
Verification of the vertical-centering non-client hook of the TextInput
control (src/native-windows-gui/src/controls/text_input.rs).

The hook installed by hook_non_client_size intercepts three window
messages (WM_NCCALCSIZE, WM_NCPAINT, WM_SIZE).  We embed the handler
closure as a pure function over an environment describing the platform
queries it performs (font lookup, DrawTextW text measurement, window and
client rectangles, the screen-to-client coordinate mapping), returning
the possibly modified NCCALCSIZE_PARAMS structure, the closure's return
value, and a trace of the platform calls it made.  Coordinates are i32
in the source; the arithmetic involved stays far from the i32 range, so
they are modelled as unbounded integers, with Rust's truncating signed
division rendered as Int.tdiv.
-/

namespace NwgTextInput

/-- A winapi RECT with its left, top, right and bottom coordinates. -/
structure RECT where
  left : Int
  top : Int
  right : Int
  bottom : Int
deriving DecidableEq

/-- A winapi POINT. -/
structure POINT where
  x : Int
  y : Int
deriving DecidableEq

/-- The NCCALCSIZE_PARAMS structure delivered with WM_NCCALCSIZE: the
rectangle array rgrc[0..2] and the lppos pointer field. -/
structure NCCALCSIZE_PARAMS where
  rgrc0 : RECT
  rgrc1 : RECT
  rgrc2 : RECT
  lppos : Int
deriving DecidableEq

/-- A fill brush: either a solid brush built by CreateSolidBrush from an
RGB triple, or a raw system color index cast to a brush handle (the
source casts COLOR_WINDOW itself when no background color is given). -/
inductive HBRUSH where
  | solid (r g b : Nat)
  | sysColor (index : Nat)
deriving DecidableEq

/-- The winapi constant COLOR_WINDOW. -/
def COLOR_WINDOW : Nat := 5

/-- The brush captured at install time from the optional background
color (text_input.rs lines 351-354): a solid RGB brush when a color is
supplied, otherwise COLOR_WINDOW cast to a brush handle. -/
def makeBrush (bg : Option (Nat × Nat × Nat)) : HBRUSH :=
  match bg with
  | some (r, g, b) => HBRUSH.solid r g b
  | none => HBRUSH.sysColor COLOR_WINDOW

/-- Platform state the handler queries: the control's currently assigned
font (none models a null HFONT returned by get_window_font), the font a
freshly acquired device context carries by default, the DrawTextW
DT_CALCRECT measurement (the bottom of the computed bounding rectangle,
as a function of the device context's font and the UTF-16 text), the
window rectangle (screen coordinates), the client rectangle (client
coordinates), and the screen position of the client origin, which
ScreenToClient subtracts from a screen point. -/
structure Env where
  fontHandle : Option Nat
  systemFont : Nat
  drawTextHeight : Nat → List Nat → Int
  windowRect : RECT
  clientRect : RECT
  clientOrigin : POINT

/-- The font left selected in the measurement device context after
SelectObject(dc, font_handle): selecting a null object fails and leaves
the device context's default font in place, so a null control font falls
back to the system default font. -/
def selectedFont (env : Env) : Nat :=
  match env.fontHandle with
  | some f => f
  | none => env.systemFont

/-- The fixed two-character probe string drawn with DT_CALCRECT, the
UTF-16 units [75, 121] (text_input.rs line 369). -/
def probeText : List Nat := [75, 121]

/-- client_height (line 372): the bottom of the rectangle computed by
DrawTextW in DT_CALCRECT mode for the probe string, measured with the
font selected into the device context. -/
def clientHeight (env : Env) : Int :=
  env.drawTextHeight (selectedFont env) probeText

/-- window_height = window.bottom - window.top (line 383). -/
def windowHeight (env : Env) : Int :=
  env.windowRect.bottom - env.windowRect.top

/-- center = ((window_height - client_height) / 2) - 4 (line 384), with
Rust's i32 division truncating toward zero. -/
def center (env : Env) : Int :=
  Int.tdiv (windowHeight env - clientHeight env) 2 - 4

/-- ScreenToClient: translate a screen point into client coordinates by
subtracting the screen position of the client origin. -/
def screenToClient (env : Env) (p : POINT) : POINT :=
  { x := p.x - env.clientOrigin.x, y := p.y - env.clientOrigin.y }

/-- Translate a client-coordinate rectangle back to screen coordinates,
the inverse of the ScreenToClient mapping applied to both corners. -/
def rectToScreen (env : Env) (r : RECT) : RECT :=
  { left := r.left + env.clientOrigin.x
    top := r.top + env.clientOrigin.y
    right := r.right + env.clientOrigin.x
    bottom := r.bottom + env.clientOrigin.y }

/-- One platform call recorded in a handler invocation's trace. -/
inductive Effect where
  | getDC
  | releaseDC
  | selectObject
  | drawTextCalc
  | fillRect (r : RECT) (brush : HBRUSH)
  | setWindowPosFrameChanged
deriving DecidableEq

/-- The WM_NCCALCSIZE branch (lines 360-392): when wParam is zero the
handler returns at once leaving the parameters alone; otherwise it
measures the font inside a GetDC/ReleaseDC pair, computes the center
offset from the window height, and shrinks rgrc[0] by that offset at the
top and at the bottom.  The branch never suppresses default processing:
the closure's value is always None. -/
def wmNcCalcSize (env : Env) (w : Nat) (info : NCCALCSIZE_PARAMS) :
    NCCALCSIZE_PARAMS × Option Int × List Effect :=
  if w = 0 then (info, none, [])
  else
    let c := center env
    ({ info with rgrc0 := { info.rgrc0 with
        top := info.rgrc0.top + c
        bottom := info.rgrc0.bottom - c } },
     none,
     [Effect.getDC, Effect.selectObject, Effect.drawTextCalc,
      Effect.selectObject, Effect.releaseDC])

/-- The top strip rectangle filled by WM_NCPAINT, in client coordinates
(lines 399-410): from the window top converted by ScreenToClient down to
the client top, spanning the client width. -/
def paintTopRect (env : Env) : RECT :=
  let pt1 := screenToClient env { x := env.windowRect.left, y := env.windowRect.top }
  { left := 0, top := pt1.y, right := env.clientRect.right, bottom := env.clientRect.top }

/-- The bottom strip rectangle filled by WM_NCPAINT, in client
coordinates (lines 402-417): from the client bottom down to the window
bottom converted by ScreenToClient, spanning the client width. -/
def paintBottomRect (env : Env) : RECT :=
  let pt2 := screenToClient env { x := env.windowRect.right, y := env.windowRect.bottom }
  { left := 0, top := env.clientRect.bottom, right := env.clientRect.right, bottom := pt2.y }

/-- The WM_NCPAINT branch (lines 393-423): fill the top and bottom
strips with the captured brush inside a GetDC/ReleaseDC pair. -/
def wmNcPaint (env : Env) (brush : HBRUSH) : List Effect :=
  [Effect.getDC,
   Effect.fillRect (paintTopRect env) brush,
   Effect.fillRect (paintBottomRect env) brush,
   Effect.releaseDC]

/-- Result of one invocation of the hook closure: the possibly modified
NCCALCSIZE_PARAMS structure behind lParam, the closure's return value
(None means default processing continues), and the trace of platform
calls performed. -/
structure HandlerResult where
  params : NCCALCSIZE_PARAMS
  ret : Option Int
  effects : List Effect
deriving DecidableEq

/-- The winapi message number WM_NCCALCSIZE (0x0083). -/
def WM_NCCALCSIZE : Nat := 131

/-- The winapi message number WM_NCPAINT (0x0085). -/
def WM_NCPAINT : Nat := 133

/-- The winapi message number WM_SIZE (0x0005). -/
def WM_SIZE : Nat := 5

/-- The hook closure bound by hook_non_client_size (lines 358-431):
dispatch on the message; every path falls through to the final None, so
default processing is never suppressed. -/
def hookHandler (env : Env) (brush : HBRUSH) (msg : Nat) (w : Nat)
    (info : NCCALCSIZE_PARAMS) : HandlerResult :=
  if msg = WM_NCCALCSIZE then
    match wmNcCalcSize env w info with
    | (p, ret, eff) => { params := p, ret := ret, effects := eff }
  else if msg = WM_NCPAINT then
    { params := info, ret := none, effects := wmNcPaint env brush }
  else if msg = WM_SIZE then
    { params := info, ret := none, effects := [Effect.setWindowPosFrameChanged] }
  else
    { params := info, ret := none, effects := [] }

/-- Net device-context effect of one platform call: GetDC acquires one,
ReleaseDC releases one, everything else is neutral. -/
def dcDelta : Effect → Int
  | Effect.getDC => 1
  | Effect.releaseDC => -1
  | _ => 0

/-- Scan of a trace starting from a given number of live device
contexts: the count never drops below zero and is exactly zero at the
end of the trace. -/
def dcBalancedFrom : Int → List Effect → Bool
  | n, [] => n == 0
  | n, e :: rest => decide (0 ≤ n + dcDelta e) && dcBalancedFrom (n + dcDelta e) rest

/-- A trace is device-context balanced when every context acquired in it
is released before the trace ends and no release is unmatched. -/
def dcBalanced (t : List Effect) : Bool := dcBalancedFrom 0 t

/-- Region removed at the top of rgrc[0] by the size-calculation branch:
the strip between the proposed top and the adjusted top, spanning the
proposed width. -/
def excludedTopRegion (env : Env) (w : Nat) (info : NCCALCSIZE_PARAMS) : RECT :=
  { left := info.rgrc0.left
    top := info.rgrc0.top
    right := info.rgrc0.right
    bottom := (wmNcCalcSize env w info).1.rgrc0.top }

/-- Region removed at the bottom of rgrc[0] by the size-calculation
branch: the strip between the adjusted bottom and the proposed bottom,
spanning the proposed width. -/
def excludedBottomRegion (env : Env) (w : Nat) (info : NCCALCSIZE_PARAMS) : RECT :=
  { left := info.rgrc0.left
    top := (wmNcCalcSize env w info).1.rgrc0.bottom
    right := info.rgrc0.right
    bottom := info.rgrc0.bottom }

/-- One platform call performed during control teardown. -/
inductive TeardownEffect where
  | unbindHandler (h : Nat)
  | destroyHandle
deriving DecidableEq

/-- The hook-uninstall step of Drop for TextInput (lines 444-447): when
the handler0 cell holds a registration it is unbound, otherwise nothing
happens; either way the registration is gone afterwards (the Rust value
is consumed by drop).  The state is the contents of handler0. -/
def uninstallHook (handler0 : Option Nat) : Option Nat × List TeardownEffect :=
  match handler0 with
  | some h => (none, [TeardownEffect.unbindHandler h])
  | none => (none, [])

/-- Full teardown (lines 440-451): the hook-uninstall step followed by
destruction of the control handle. -/
def dropTextInput (handler0 : Option Nat) : Option Nat × List TeardownEffect :=
  ((uninstallHook handler0).1,
   (uninstallHook handler0).2 ++ [TeardownEffect.destroyHandle])

/-- Concrete environment used by the witnesses: a 25-unit-high window at
(10, 20)-(110, 45), a font measuring 13 units, and the client geometry
the size-calculation handler itself establishes (center = 2). -/
def envW : Env :=
  { fontHandle := some 7
    systemFont := 1
    drawTextHeight := fun _ _ => 13
    windowRect := { left := 10, top := 20, right := 110, bottom := 45 }
    clientRect := { left := 0, top := 0, right := 100, bottom := 21 }
    clientOrigin := { x := 10, y := 22 } }

/-- The witness environment with a null control font. -/
def envNoFont : Env :=
  { envW with fontHandle := none }

/-- An all-zero rectangle for the unused rgrc slots of the witnesses. -/
def rectZ : RECT := { left := 0, top := 0, right := 0, bottom := 0 }

/-- Concrete NCCALCSIZE_PARAMS used by the witnesses: rgrc[0] holds the
witness window rectangle, as the host supplies on WM_NCCALCSIZE. -/
def infoW : NCCALCSIZE_PARAMS :=
  { rgrc0 := { left := 10, top := 20, right := 110, bottom := 45 }
    rgrc1 := rectZ
    rgrc2 := rectZ
    lppos := 0 }

/-- Concrete brush used by the witnesses. -/
def brushW : HBRUSH := makeBrush none

/-- Claim C1: in the size-calculation branch with a nonzero
adjustment-request flag, the vertical offset applied to the client
rectangle equals ((window_height - client_height) / 2) - 4, where
window_height is window.bottom - window.top and client_height is the
DT_CALCRECT-measured bounding-rectangle bottom of the fixed
two-character probe string drawn with the control's selected font. -/
theorem c1_center_formula (env : Env) (brush : HBRUSH) (w : Nat)
    (info : NCCALCSIZE_PARAMS) (hw : w ≠ 0) :
    (hookHandler env brush WM_NCCALCSIZE w info).params.rgrc0.top - info.rgrc0.top =
      Int.tdiv ((env.windowRect.bottom - env.windowRect.top) -
        env.drawTextHeight (selectedFont env) probeText) 2 - 4 := by
  simp [hookHandler, wmNcCalcSize, hw, center, windowHeight, clientHeight]

/-- Witness for C1 at the concrete geometry: window height 25, measured
line height 13, offset (25 - 13) / 2 - 4 = 2. -/
theorem c1_center_formula_witness :
    (1 : Nat) ≠ 0 ∧
    (hookHandler envW brushW WM_NCCALCSIZE 1 infoW).params.rgrc0.top - infoW.rgrc0.top =
      Int.tdiv ((envW.windowRect.bottom - envW.windowRect.top) -
        envW.drawTextHeight (selectedFont envW) probeText) 2 - 4 :=
  ⟨by decide, c1_center_formula envW brushW 1 infoW (by decide)⟩

/-- Claim C2: with a nonzero adjustment-request flag the proposed client
rectangle is shrunk symmetrically: the top grows by exactly the center
offset and the bottom shrinks by exactly the center offset, so the
reserved top and bottom strips have equal height. -/
theorem c2_symmetric_shrink (env : Env) (brush : HBRUSH) (w : Nat)
    (info : NCCALCSIZE_PARAMS) (hw : w ≠ 0) :
    (hookHandler env brush WM_NCCALCSIZE w info).params.rgrc0.top - info.rgrc0.top =
      center env ∧
    info.rgrc0.bottom - (hookHandler env brush WM_NCCALCSIZE w info).params.rgrc0.bottom =
      center env := by
  constructor <;> simp [hookHandler, wmNcCalcSize, hw]

/-- Witness for C2 at the concrete geometry: both strips have height
center envW = 2. -/
theorem c2_symmetric_shrink_witness :
    (1 : Nat) ≠ 0 ∧
    ((hookHandler envW brushW WM_NCCALCSIZE 1 infoW).params.rgrc0.top - infoW.rgrc0.top =
      center envW ∧
    infoW.rgrc0.bottom - (hookHandler envW brushW WM_NCCALCSIZE 1 infoW).params.rgrc0.bottom =
      center envW) :=
  ⟨by decide, c2_symmetric_shrink envW brushW 1 infoW (by decide)⟩

/-- Claim C3: for the window geometry the size-calculation branch itself
establishes (client origin at the adjusted top-left corner of rgrc[0]
and client rectangle of the adjusted size), the strips filled by the
paint branch, translated from client back to screen coordinates, are
exactly the regions the size-calculation branch removed from rgrc[0]:
they coincide edge for edge, with no gap and no overlap. -/
theorem c3_paint_matches_layout (env : Env) (w : Nat)
    (info : NCCALCSIZE_PARAMS) (hw : w ≠ 0)
    (hinfo : info.rgrc0 = env.windowRect)
    (hox : env.clientOrigin.x = env.windowRect.left)
    (hoy : env.clientOrigin.y = env.windowRect.top + center env)
    (hcl : env.clientRect =
      { left := 0, top := 0
        right := env.windowRect.right - env.windowRect.left
        bottom := (env.windowRect.bottom - center env) -
          (env.windowRect.top + center env) }) :
    rectToScreen env (paintTopRect env) = excludedTopRegion env w info ∧
    rectToScreen env (paintBottomRect env) = excludedBottomRegion env w info := by
  constructor <;>
    simp [rectToScreen, paintTopRect, paintBottomRect, screenToClient,
      excludedTopRegion, excludedBottomRegion, wmNcCalcSize, hw, hinfo,
      hox, hoy, hcl, RECT.mk.injEq]

/-- Witness for C3 at the concrete geometry: center 2, client origin
(10, 22), client rectangle 100 by 21; the painted strips and the
excluded regions coincide. -/
theorem c3_paint_matches_layout_witness :
    (1 : Nat) ≠ 0 ∧
    infoW.rgrc0 = envW.windowRect ∧
    envW.clientOrigin.x = envW.windowRect.left ∧
    envW.clientOrigin.y = envW.windowRect.top + center envW ∧
    envW.clientRect =
      { left := 0, top := 0
        right := envW.windowRect.right - envW.windowRect.left
        bottom := (envW.windowRect.bottom - center envW) -
          (envW.windowRect.top + center envW) } ∧
    (rectToScreen envW (paintTopRect envW) = excludedTopRegion envW 1 infoW ∧
     rectToScreen envW (paintBottomRect envW) = excludedBottomRegion envW 1 infoW) :=
  ⟨by decide, by decide, by decide, by decide, by decide,
   c3_paint_matches_layout envW 1 infoW (by decide) (by decide) (by decide)
     (by decide) (by decide)⟩

/-- Claim C4: when the adjustment-request flag is zero the handler does
nothing: the parameter structure comes back byte for byte unmodified, no
platform call is made, and the returned None leaves default processing
in place. -/
theorem c4_guard_bypass (env : Env) (brush : HBRUSH) (info : NCCALCSIZE_PARAMS) :
    hookHandler env brush WM_NCCALCSIZE 0 info =
      { params := info, ret := none, effects := [] } :=
  rfl

/-- Claim C5: for any measured line height and any window height at
least that line height, the center offset is nonnegative as soon as the
window height exceeds the line height by at least 8, under the
truncating integer arithmetic center = ((W - h) / 2) - 4. -/
theorem c5_center_nonneg (env : Env)
    (h1 : clientHeight env ≤ windowHeight env)
    (h2 : clientHeight env + 8 ≤ windowHeight env) :
    0 ≤ center env := by
  unfold center
  rw [Int.tdiv_eq_ediv (by omega) (by norm_num)]
  omega

/-- Witness for C5 at the concrete geometry: window height 25, line
height 13, 13 + 8 ≤ 25, and the center offset 2 is nonnegative. -/
theorem c5_center_nonneg_witness :
    clientHeight envW ≤ windowHeight envW ∧
    clientHeight envW + 8 ≤ windowHeight envW ∧
    0 ≤ center envW :=
  ⟨by decide, by decide, c5_center_nonneg envW (by decide) (by decide)⟩

/-- Claim C6: installing the hook without a background color captures
the COLOR_WINDOW system brush handle and the paint branch fills both
padding strips with it; installing with an explicit RGB triple captures
a solid brush of exactly that color and both fills use it. -/
theorem c6_brush_color (env : Env) (w : Nat) (info : NCCALCSIZE_PARAMS)
    (r g b : Nat) :
    (hookHandler env (makeBrush none) WM_NCPAINT w info).effects =
      [Effect.getDC,
       Effect.fillRect (paintTopRect env) (HBRUSH.sysColor COLOR_WINDOW),
       Effect.fillRect (paintBottomRect env) (HBRUSH.sysColor COLOR_WINDOW),
       Effect.releaseDC] ∧
    (hookHandler env (makeBrush (some (r, g, b))) WM_NCPAINT w info).effects =
      [Effect.getDC,
       Effect.fillRect (paintTopRect env) (HBRUSH.solid r g b),
       Effect.fillRect (paintBottomRect env) (HBRUSH.solid r g b),
       Effect.releaseDC] :=
  ⟨rfl, rfl⟩

/-- Claim C7: a null control font handle does not fault the measurement:
the device context keeps its default system font, client_height is
measured with that font, and the size-calculation branch completes
normally, applying the usual adjustment and returning None. -/
theorem c7_null_font_fallback (env : Env) (brush : HBRUSH) (w : Nat)
    (info : NCCALCSIZE_PARAMS) (hf : env.fontHandle = none) (hw : w ≠ 0) :
    clientHeight env = env.drawTextHeight env.systemFont probeText ∧
    (hookHandler env brush WM_NCCALCSIZE w info).ret = none ∧
    (hookHandler env brush WM_NCCALCSIZE w info).params.rgrc0.top =
      info.rgrc0.top + center env := by
  refine ⟨?_, ?_, ?_⟩ <;>
    simp [clientHeight, selectedFont, hf, hookHandler, wmNcCalcSize, hw]

/-- Witness for C7 in the environment whose control font is null: the
fallback measurement still yields 13 and the handler completes. -/
theorem c7_null_font_fallback_witness :
    envNoFont.fontHandle = none ∧
    (1 : Nat) ≠ 0 ∧
    (clientHeight envNoFont = envNoFont.drawTextHeight envNoFont.systemFont probeText ∧
     (hookHandler envNoFont brushW WM_NCCALCSIZE 1 infoW).ret = none ∧
     (hookHandler envNoFont brushW WM_NCCALCSIZE 1 infoW).params.rgrc0.top =
       infoW.rgrc0.top + center envNoFont) :=
  ⟨rfl, by decide, c7_null_font_fallback envNoFont brushW 1 infoW rfl (by decide)⟩

/-- Claim C8: every invocation of the hook closure, for every message
and every flag value, including the early ignore path of the
size-calculation branch, leaves the device-context acquisitions
balanced: every GetDC in the trace is matched by a ReleaseDC before the
closure returns and the live count never goes negative. -/
theorem c8_dc_balanced (env : Env) (brush : HBRUSH) (msg w : Nat)
    (info : NCCALCSIZE_PARAMS) :
    dcBalanced (hookHandler env brush msg w info).effects = true := by
  by_cases h1 : msg = WM_NCCALCSIZE
  · subst h1
    cases w with
    | zero => rfl
    | succ n => rfl
  · by_cases h2 : msg = WM_NCPAINT
    · subst h2
      simp [hookHandler, dcBalanced, dcBalancedFrom, dcDelta, wmNcPaint,
        WM_NCCALCSIZE, WM_NCPAINT]
    · by_cases h3 : msg = WM_SIZE
      · subst h3; rfl
      · simp [hookHandler, h1, h2, h3, dcBalanced, dcBalancedFrom]

/-- Claim C9: the hook-uninstall step of teardown is idempotent: run on
the state a first run leaves behind it performs no platform call and
leaves the state unchanged, and run on a never-installed registration it
is a no-op as well; being a total function it never faults. -/
theorem c9_uninstall_idempotent (s : Option Nat) :
    uninstallHook (uninstallHook s).1 = ((uninstallHook s).1, []) ∧
    uninstallHook none = (none, []) := by
  cases s <;> exact ⟨rfl, rfl⟩

/-- Claim C10: with a nonzero adjustment-request flag the
size-calculation branch modifies only the top and bottom of rgrc[0]: the
left and right edges of rgrc[0], the other two rectangles and the lppos
field of the parameter structure are returned unchanged. -/
theorem c10_only_top_bottom (env : Env) (brush : HBRUSH) (w : Nat)
    (info : NCCALCSIZE_PARAMS) (hw : w ≠ 0) :
    (hookHandler env brush WM_NCCALCSIZE w info).params.rgrc0.left = info.rgrc0.left ∧
    (hookHandler env brush WM_NCCALCSIZE w info).params.rgrc0.right = info.rgrc0.right ∧
    (hookHandler env brush WM_NCCALCSIZE w info).params.rgrc1 = info.rgrc1 ∧
    (hookHandler env brush WM_NCCALCSIZE w info).params.rgrc2 = info.rgrc2 ∧
    (hookHandler env brush WM_NCCALCSIZE w info).params.lppos = info.lppos := by
  refine ⟨?_, ?_, ?_, ?_, ?_⟩ <;> simp [hookHandler, wmNcCalcSize, hw]

/-- Witness for C10 at the concrete geometry. -/
theorem c10_only_top_bottom_witness :
    (1 : Nat) ≠ 0 ∧
    ((hookHandler envW brushW WM_NCCALCSIZE 1 infoW).params.rgrc0.left = infoW.rgrc0.left ∧
     (hookHandler envW brushW WM_NCCALCSIZE 1 infoW).params.rgrc0.right = infoW.rgrc0.right ∧
     (hookHandler envW brushW WM_NCCALCSIZE 1 infoW).params.rgrc1 = infoW.rgrc1 ∧
     (hookHandler envW brushW WM_NCCALCSIZE 1 infoW).params.rgrc2 = infoW.rgrc2 ∧
     (hookHandler envW brushW WM_NCCALCSIZE 1 infoW).params.lppos = infoW.lppos) :=
  ⟨by decide, c10_only_top_bottom envW brushW 1 infoW (by decide)⟩
